import Mathlib

/-!
Shallow embedding of the dependency-symbol retrieval core of the repository:
`serena/dependency_symbol.py`, `serena/dependency_decompiler.py` and
`serena/config/dependency_config.py`.  Python dictionaries become structures,
the in-memory cache becomes an association list, the filesystem and the
subprocess runner become explicit oracle parameters, and exceptions caught by
the code are modeled by an explicit result type.
-/

namespace Serena

/-- `solidlsp.ls_types.SymbolKind` (only the kinds exercised by this core). -/
inductive SymbolKind where
  | Class
  | Method
  | Property
  | Function
  | Variable
deriving DecidableEq, Inhabited

/-- The observable part of `LanguageServerSymbol` that this core produces and
inspects: the `name` and the symbol kind.  The placeholder symbols built by the
code carry no body text in their symbol record. -/
structure Symbol where
  name : String
  kind : SymbolKind
deriving DecidableEq, Inhabited

/-- `DependencyInfo` dataclass from `dependency_symbol.py`. -/
structure DependencyInfo where
  name : String
  version : String
  type : String
  path : Option String := none
  assembly_name : Option String := none
deriving DecidableEq, Inhabited

/-- `DependencySymbolConfig` from `config/dependency_config.py` (the fields the
retrieval logic consults; numeric fields are `Int` like Python ints). -/
structure DependencySymbolConfig where
  enabled : Bool := true
  max_results : Int := 50
  decompilation_enabled : Bool := false
  decompilation_depth : Int := 1
  include_private_members : Bool := false
  cache_enabled : Bool := true
  cache_ttl_seconds : Int := 3600
  include_nuget_packages : Bool := true
  include_external_dlls : Bool := true
  include_system_assemblies : Bool := false
  decompiler_backend : String := "ilspy"
  ilspycmd_path : String := "ilspycmd"

/-- `DEFAULT_DEPENDENCY_CONFIG`. -/
def DEFAULT_DEPENDENCY_CONFIG : DependencySymbolConfig := {}

/-- Python truthiness of an optional string: `None` and `""` are falsy. -/
def pyTruthyStr : Option String → Bool
  | none => false
  | some s => !(s == "")

/-- Python `repr` of a bool as used by an f-string (`f"...{include_body}"`). -/
def pyBoolRepr (b : Bool) : String :=
  if b then "True" else "False"

/-- `hay` starts with `pat` (character lists). -/
def startsWithChars : List Char → List Char → Bool
  | _, [] => true
  | [], _ :: _ => false
  | h :: hs, p :: ps => h == p && startsWithChars hs ps

/-- Python substring containment `pat in hay` (character lists). -/
def containsChars : List Char → List Char → Bool
  | [], pat => startsWithChars [] pat
  | h :: hs, pat => startsWithChars (h :: hs) pat || containsChars hs pat

/-- Python substring containment `pat in hay` on strings. -/
def strContainsStr (hay pat : String) : Bool :=
  containsChars hay.toList pat.toList

/-- Python `str.lower` (character-wise; ASCII case mapping). -/
def pyLower (s : String) : String :=
  String.mk (s.toList.map Char.toLower)

/-- Python `str.startswith` on strings. -/
def strStartsWith (s pat : String) : Bool :=
  startsWithChars s.toList pat.toList

/-- Python `str.endswith` on strings. -/
def strEndsWith (s pat : String) : Bool :=
  startsWithChars s.toList.reverse pat.toList.reverse

/-- Python `str.splitlines` on character lists, for the newline conventions
`\n`, `\r\n` and `\r` (a trailing terminator does not produce an empty line). -/
def pySplitlinesChars : List Char → List Char → List (List Char)
  | acc, [] => if acc.isEmpty then [] else [acc.reverse]
  | acc, '\r' :: '\n' :: rest => acc.reverse :: pySplitlinesChars [] rest
  | acc, '\r' :: rest => acc.reverse :: pySplitlinesChars [] rest
  | acc, '\n' :: rest => acc.reverse :: pySplitlinesChars [] rest
  | acc, c :: rest => pySplitlinesChars (c :: acc) rest

/-- Python `str.splitlines` on strings, modelling `result.stdout.splitlines()`. -/
def pySplitlines (s : String) : List String :=
  (pySplitlinesChars [] s.toList).map (fun cs => String.mk cs)

/-- Root part of `os.path.splitext` for a bare file name: split at the last
dot, unless every character before that dot is itself a dot. -/
def splitext_root (s : String) : String :=
  let cs := s.toList
  match cs.reverse.findIdx? (fun c => c == '.') with
  | none => s
  | some k =>
    let i := cs.length - 1 - k
    if (cs.take i).any (fun c => !(c == '.')) then String.mk (cs.take i) else s

/-! ## Decompiler backends (`dependency_decompiler.py`)

A subprocess run (`subprocess.run(cmd, capture_output=True, text=True,
check=True)`) is modelled by an oracle from the command line to one of three
outcomes: the two exception classes the code catches, or success with the
captured stdout.  Each backend operation returns its result together with the
list of command lines it handed to the subprocess runner, so that "invokes the
external decompiler" is an observable fact of the embedding. -/

/-- Outcome of a `subprocess.run(..., check=True)` call: success with stdout,
`subprocess.CalledProcessError` (non-zero exit), or `FileNotFoundError`
(missing executable). -/
inductive RunResult where
  | success (stdout : String)
  | calledProcessError
  | fileNotFound
deriving DecidableEq

/-- A subprocess runner: command line → outcome. -/
def SubprocessRunner : Type := List String → RunResult

/-- `IlSpyDecompiler.__init__` state. -/
structure IlSpyDecompiler where
  ilspycmd_path : String
  depth : Int := 1
  include_private_members : Bool := false
deriving DecidableEq

/-- `IlSpyDecompiler.enumerate_types`: runs `ilspycmd -l c,i,s,d,e <path>`;
stdout lines on success, `[]` on either caught exception.  Second component:
the commands passed to the subprocess runner. -/
def IlSpyDecompiler.enumerate_types (d : IlSpyDecompiler) (run : SubprocessRunner)
    (assembly_path : String) : List String × List (List String) :=
  let cmd := [d.ilspycmd_path, "-l", "c,i,s,d,e", assembly_path]
  match run cmd with
  | RunResult.success out => (pySplitlines out, [cmd])
  | _ => ([], [cmd])

/-- `IlSpyDecompiler.decompile_type_body`: runs `ilspycmd -t <type> <path>`;
stdout on success, the failure stub on either caught exception.  Second
component: the commands passed to the subprocess runner. -/
def IlSpyDecompiler.decompile_type_body (d : IlSpyDecompiler) (run : SubprocessRunner)
    (assembly_path type_name : String) : String × List (List String) :=
  let cmd := [d.ilspycmd_path, "-t", type_name, assembly_path]
  match run cmd with
  | RunResult.success out => (out, [cmd])
  | _ => ("// Failed to decompile " ++ type_name, [cmd])

/-- `CecilDecompiler.__init__` state. -/
structure CecilDecompiler where
  depth : Int := 1
  include_private_members : Bool := false
deriving DecidableEq

/-- `CecilDecompiler.enumerate_types`: placeholder, always `[]`, no subprocess. -/
def CecilDecompiler.enumerate_types (_d : CecilDecompiler)
    (_assembly_path : String) : List String × List (List String) :=
  ([], [])

/-- `CecilDecompiler.decompile_type_body`: deterministic placeholder string,
no subprocess. -/
def CecilDecompiler.decompile_type_body (_d : CecilDecompiler)
    (assembly_path type_name : String) : String × List (List String) :=
  ("// Decompiled body of " ++ type_name ++ " from " ++ assembly_path ++ " [Cecil placeholder]", [])

/-- A concrete `DecompilerBackend` instance. -/
inductive DecompilerBackend where
  | ilspy (d : IlSpyDecompiler)
  | cecil (d : CecilDecompiler)
deriving DecidableEq

/-- Dispatch of `enumerate_types` through the abstract backend. -/
def DecompilerBackend.enumerate_types (b : DecompilerBackend) (run : SubprocessRunner)
    (assembly_path : String) : List String × List (List String) :=
  match b with
  | DecompilerBackend.ilspy d => d.enumerate_types run assembly_path
  | DecompilerBackend.cecil d => d.enumerate_types assembly_path

/-- Dispatch of `decompile_type_body` through the abstract backend. -/
def DecompilerBackend.decompile_type_body (b : DecompilerBackend) (run : SubprocessRunner)
    (assembly_path type_name : String) : String × List (List String) :=
  match b with
  | DecompilerBackend.ilspy d => d.decompile_type_body run assembly_path type_name
  | DecompilerBackend.cecil d => d.decompile_type_body assembly_path type_name

/-- `DependencySymbolRetriever._get_decompiler`.  Note that in the source the
`"auto"` branch wraps `IlSpyDecompiler(...)` in `try/except ImportError`, but
that constructor is a plain attribute assignment and can never raise
`ImportError`, so `"auto"` always resolves to the ILSpy strategy. -/
def get_decompiler (cfg : DependencySymbolConfig) : Option DecompilerBackend :=
  if cfg.decompiler_backend == "ilspy" then
    some (DecompilerBackend.ilspy
      { ilspycmd_path := cfg.ilspycmd_path, depth := cfg.decompilation_depth,
        include_private_members := cfg.include_private_members })
  else if cfg.decompiler_backend == "cecil" then
    some (DecompilerBackend.cecil
      { depth := cfg.decompilation_depth,
        include_private_members := cfg.include_private_members })
  else if cfg.decompiler_backend == "auto" then
    some (DecompilerBackend.ilspy
      { ilspycmd_path := cfg.ilspycmd_path, depth := cfg.decompilation_depth,
        include_private_members := cfg.include_private_members })
  else
    none

/-! ## Symbol synthesis and matching (`dependency_symbol.py`) -/

/-- `DependencySymbolRetriever._create_placeholder_dll_symbols`: one Class
symbol named after the dependency. -/
def create_placeholder_dll_symbols (dep : DependencyInfo) : List Symbol :=
  [{ name := dep.name, kind := SymbolKind.Class }]

/-- The `common_types` table of `_create_common_dotnet_symbols`. -/
def common_types : List (String × String × SymbolKind) :=
  [("System", "Console", SymbolKind.Class),
   ("System", "String", SymbolKind.Class),
   ("System", "Int32", SymbolKind.Class),
   ("System.Collections", "List", SymbolKind.Class),
   ("System.Collections.Generic", "Dictionary", SymbolKind.Class)]

/-- `DependencySymbolRetriever._create_common_dotnet_symbols`: a symbol per
table entry whose namespace or type name contains the dependency's name
case-insensitively. -/
def create_common_dotnet_symbols (dep : DependencyInfo) : List Symbol :=
  common_types.filterMap (fun entry =>
    match entry with
    | (namespc, type_name, kind) =>
      if strContainsStr (pyLower namespc) (pyLower dep.name)
          || strContainsStr (pyLower type_name) (pyLower dep.name) then
        some { name := type_name, kind := kind }
      else
        none)

/-- `DependencySymbolRetriever._get_nuget_symbols` (placeholder symbols; the
`include_body` argument is accepted and ignored, as in the source). -/
def get_nuget_symbols (dep : DependencyInfo) (_include_body : Bool) : List Symbol :=
  create_common_dotnet_symbols dep

/-- `DependencySymbolRetriever._get_dll_symbols`.  `path_exists` models
`os.path.exists`; the decompiler instance is the one `__init__` computed from
the configuration via `_get_decompiler`. -/
def get_dll_symbols (cfg : DependencySymbolConfig) (run : SubprocessRunner)
    (path_exists : String → Bool) (dep : DependencyInfo) (include_body : Bool) :
    List Symbol :=
  match dep.path with
  | none => []
  | some p =>
    if p == "" then
      []
    else if !(path_exists p) then
      []
    else
      match get_decompiler cfg with
      | none => []
      | some d =>
        if !cfg.decompilation_enabled then
          create_placeholder_dll_symbols dep
        else
          let type_names := (d.enumerate_types run p).fst
          type_names.map (fun type_name =>
            let _body :=
              if include_body then (d.decompile_type_body run p type_name).fst else ""
            (create_placeholder_dll_symbols dep)[0]!)

/-- `DependencySymbolRetriever._matches_search_criteria`.  `include_kinds` and
`exclude_kinds` are `None`-or-sequence in the source; `None` and `[]` are both
falsy there, so both are the empty list here.  A symbol's `name` is always
present on the symbols this core produces, so the `symbol.name or ""` guard
reduces to the name itself. -/
def matches_search_criteria (symbol : Symbol) (name_path : String)
    (include_kinds exclude_kinds : List SymbolKind) (substring_matching : Bool) :
    Bool :=
  if include_kinds ≠ [] ∧ symbol.kind ∉ include_kinds then
    false
  else if exclude_kinds ≠ [] ∧ symbol.kind ∈ exclude_kinds then
    false
  else
    let symbol_name := symbol.name
    if substring_matching then
      strContainsStr (pyLower symbol_name) (pyLower name_path)
    else
      pyLower symbol_name == pyLower name_path

/-! ## Discovery (`_discover_dependencies` and its two sub-scans)

The filesystem is modelled by the data these scans read: the parse result of
each `.csproj` file found under the project root, and — for each search root —
whether it is a directory and the flattened list of file names its
`os.walk` yields. -/

/-- One `PackageReference` element: its `Include` and `Version` attributes
(`none` = attribute absent; `some ""` = attribute present but empty). -/
structure PackageRef where
  include_attr : Option String
  version_attr : Option String
deriving DecidableEq

/-- One `.csproj` file: whether `ET.parse` succeeds, and the
`PackageReference` elements found when it does. -/
structure CsprojFile where
  parse_ok : Bool
  refs : List PackageRef
deriving DecidableEq

/-- One search root: its path, whether `os.path.isdir` holds, and the file
names its walk yields (walk flattened; the containing directory is folded into
`path`). -/
structure WalkRoot where
  path : String
  is_dir : Bool
  files : List String
deriving DecidableEq

/-- The project tree as seen by discovery: the `.csproj` files under the
project root, the walk of the project root itself, and the walks of the
configured `external_search_paths` (in order). -/
structure ProjectFs where
  csproj_files : List CsprojFile
  project_root : WalkRoot
  external_roots : List WalkRoot
deriving DecidableEq

/-- `DependencySymbolRetriever._discover_nuget_dependencies`: one `nuget`
descriptor per `PackageReference` whose `Include` and `Version` are both
truthy, in files that parse; parse failures are skipped. -/
def discover_nuget_dependencies (fs : ProjectFs) : List DependencyInfo :=
  fs.csproj_files.flatMap (fun f =>
    if f.parse_ok then
      f.refs.filterMap (fun r =>
        if pyTruthyStr r.include_attr && pyTruthyStr r.version_attr then
          some { name := r.include_attr.getD "", version := r.version_attr.getD "",
                 type := "nuget", assembly_name := some (r.include_attr.getD "" ++ ".dll") }
        else
          none)
    else [])

/-- `DependencySymbolRetriever._discover_external_dlls`: walk
`[project_root] + external_search_paths`, skipping non-directories; every
`.dll` file becomes a descriptor unless it is a `System.`-prefixed name and
system assemblies are disabled. -/
def discover_external_dlls (cfg : DependencySymbolConfig) (fs : ProjectFs) :
    List DependencyInfo :=
  (fs.project_root :: fs.external_roots).flatMap (fun root =>
    if !root.is_dir then []
    else
      root.files.filterMap (fun file =>
        if strEndsWith file ".dll" then
          if !cfg.include_system_assemblies && strStartsWith file "System." then
            none
          else
            some { name := splitext_root file, version := "unknown", type := "dll",
                   path := some (root.path ++ "/" ++ file),
                   assembly_name := some (splitext_root file) }
        else none))

/-- `DependencySymbolRetriever._discover_dependencies`: reset the list, then
append the package scan followed by the binary scan. -/
def discover_dependencies (cfg : DependencySymbolConfig) (fs : ProjectFs) :
    List DependencyInfo :=
  discover_nuget_dependencies fs ++ discover_external_dlls cfg fs

/-! ## Per-dependency resolution and the symbol cache -/

/-- The f-string cache key of `_get_dependency_symbols`:
`f"{dependency.type}:{dependency.name}:{dependency.version}:{include_body}"`. -/
def dependency_cache_key (dep : DependencyInfo) (include_body : Bool) : String :=
  dep.type ++ ":" ++ dep.name ++ ":" ++ dep.version ++ ":" ++ pyBoolRepr include_body

/-- The symbol cache `self._dependency_cache`, as an association list (newest
entry first, like shadowing inserts in a dict for our lookups). -/
def SymbolCache : Type := List (String × List Symbol)

/-- Dict lookup in the symbol cache. -/
def lookup_cache (key : String) : SymbolCache → Option (List Symbol)
  | [] => none
  | (k, v) :: rest => if k == key then some v else lookup_cache key rest

/-- `DependencySymbolRetriever._get_dependency_symbols`: look up the cache
key; on a miss compute per dependency kind, store under the key, and return.
Returns the symbols and the updated cache. -/
def get_dependency_symbols (cfg : DependencySymbolConfig) (run : SubprocessRunner)
    (path_exists : String → Bool) (dep : DependencyInfo) (include_body : Bool)
    (cache : SymbolCache) : List Symbol × SymbolCache :=
  let cache_key := dependency_cache_key dep include_body
  match lookup_cache cache_key cache with
  | some syms => (syms, cache)
  | none =>
    let symbols :=
      if dep.type == "nuget" then
        get_nuget_symbols dep include_body
      else if dep.type == "dll" && pyTruthyStr dep.path then
        get_dll_symbols cfg run path_exists dep include_body
      else
        []
    (symbols, (cache_key, symbols) :: cache)

/-- The `max_results` truncation step at the end of
`find_dependency_symbols`. -/
def apply_max_results (max_results : Int) (l : List Symbol) : List Symbol :=
  if max_results > 0 && (l.length : Int) > max_results then
    l.take max_results.toNat
  else
    l

/-- The caller-supplied arguments of `find_dependency_symbols`. -/
structure Query where
  name_path : String
  include_body : Bool := false
  include_kinds : List SymbolKind := []
  exclude_kinds : List SymbolKind := []
  substring_matching : Bool := false
  include_nuget : Bool := true
  include_external_dlls : Bool := true

/-- The aggregation loop of `find_dependency_symbols`: walk the discovered
dependencies, skip those excluded by the per-kind toggles, resolve the rest
through the cache, and append.  Returns all aggregated symbols and the final
cache. -/
def collect_dependency_symbols (cfg : DependencySymbolConfig) (run : SubprocessRunner)
    (path_exists : String → Bool) (deps : List DependencyInfo) (q : Query)
    (cache : SymbolCache) : List Symbol × SymbolCache :=
  deps.foldl
    (fun acc dep =>
      if (dep.type == "nuget" && !q.include_nuget)
          || (dep.type == "dll" && !q.include_external_dlls) then
        acc
      else
        let r := get_dependency_symbols cfg run path_exists dep q.include_body acc.2
        (acc.1 ++ r.1, r.2))
    ([], cache)

/-! ## Retriever state machine

A `DependencySymbolRetriever` instance owns `_dependencies_info` and
`_dependency_cache`; the project tree, the configuration, `os.path.exists`
and the subprocess runner are the fixed outside world. -/

/-- The fixed environment of one retriever instance. -/
structure World where
  cfg : DependencySymbolConfig
  fs : ProjectFs
  run : SubprocessRunner
  path_exists : String → Bool

/-- The mutable state of a retriever instance. -/
structure RetrieverState where
  dependencies_info : List DependencyInfo
  dependency_cache : SymbolCache

/-- State after `__init__`: both containers empty. -/
def initial_state : RetrieverState :=
  { dependencies_info := [], dependency_cache := [] }

/-- `DependencySymbolRetriever.clear_cache`: empty both containers. -/
def clear_cache (_s : RetrieverState) : RetrieverState :=
  { dependencies_info := [], dependency_cache := [] }

/-- The `if not self._dependencies_info: self._discover_dependencies()` guard
shared by `list_dependencies` and `find_dependency_symbols`.  The boolean
records whether the discovery scan ran. -/
def ensure_discovered (w : World) (s : RetrieverState) : RetrieverState × Bool :=
  if s.dependencies_info.isEmpty then
    ({ s with dependencies_info := discover_dependencies w.cfg w.fs }, true)
  else
    (s, false)

/-- `DependencySymbolRetriever.list_dependencies`: run the discovery guard and
return the (unchanged-cache) state plus the descriptor list it reports. -/
def list_dependencies (w : World) (s : RetrieverState) :
    RetrieverState × Bool × List DependencyInfo :=
  let r := ensure_discovered w s
  (r.1, r.2, r.1.dependencies_info)

/-- `DependencySymbolRetriever.find_dependency_symbols`: discovery guard,
aggregation over non-skipped dependencies through the cache, criteria filter,
`max_results` truncation. -/
def find_dependency_symbols (w : World) (s : RetrieverState) (q : Query) :
    RetrieverState × Bool × List Symbol :=
  let r := ensure_discovered w s
  let c := collect_dependency_symbols w.cfg w.run w.path_exists
    r.1.dependencies_info q r.1.dependency_cache
  let filtered_symbols := c.1.filter (fun symbol =>
    matches_search_criteria symbol q.name_path q.include_kinds q.exclude_kinds
      q.substring_matching)
  ({ r.1 with dependency_cache := c.2 }, r.2,
    apply_max_results w.cfg.max_results filtered_symbols)

/-- One public call in a call sequence (claims about memoized discovery talk
about sequences of these two operations). -/
inductive Op where
  | listDeps
  | findSyms (q : Query)

/-- Run one public call; report the new state and whether discovery ran. -/
def run_op (w : World) (s : RetrieverState) : Op → RetrieverState × Bool
  | Op.listDeps =>
    let r := list_dependencies w s
    (r.1, r.2.1)
  | Op.findSyms q =>
    let r := find_dependency_symbols w s q
    (r.1, r.2.1)

/-- Run a call sequence; count how many of the calls ran the discovery scan. -/
def run_ops (w : World) : RetrieverState → List Op → RetrieverState × Nat
  | s, [] => (s, 0)
  | s, op :: ops =>
    let r := run_op w s op
    let rest := run_ops w r.1 ops
    (rest.1, (if r.2 then 1 else 0) + rest.2)

/-! ## Spec-side definitions

These follow the wording of the specification, to be compared against the
definitions above, which follow the source. -/

/-- Spec-side matching predicate: a symbol matches iff (a) its kind is not in
`exclude_kinds` and, when `include_kinds` is non-empty, its kind is in
`include_kinds`; and (b) its name matches the pattern — case-insensitive
substring containment under substring matching, case-insensitive exact
equality otherwise. -/
def matches_query_spec (symbol : Symbol) (pattern : String)
    (include_kinds exclude_kinds : List SymbolKind) (substring_matching : Bool) :
    Prop :=
  (symbol.kind ∉ exclude_kinds ∧ (include_kinds ≠ [] → symbol.kind ∈ include_kinds))
  ∧ (if substring_matching then
      strContainsStr (pyLower symbol.name) (pyLower pattern) = true
    else
      pyLower symbol.name = pyLower pattern)

/-- Spec-side count of manifest package references that carry both a name and
a version attribute (attribute present, possibly empty), across manifests that
parse. -/
def package_refs_with_attrs (fs : ProjectFs) : Nat :=
  (fs.csproj_files.map (fun f =>
    if f.parse_ok then
      f.refs.countP (fun r => r.include_attr.isSome && r.version_attr.isSome)
    else 0)).sum

/-- Count of manifest package references with both a non-empty name and a
non-empty version (the references the package scan records). -/
def valid_package_refs (fs : ProjectFs) : Nat :=
  (fs.csproj_files.map (fun f =>
    if f.parse_ok then
      f.refs.countP (fun r => pyTruthyStr r.include_attr && pyTruthyStr r.version_attr)
    else 0)).sum

/-- Spec-side count of binary files found under the search roots after the
system-assembly exclusion policy. -/
def binary_files_after_exclusion (cfg : DependencySymbolConfig) (fs : ProjectFs) :
    Nat :=
  ((fs.project_root :: fs.external_roots).map (fun root =>
    if root.is_dir then
      root.files.countP (fun file =>
        strEndsWith file ".dll"
          && !(!cfg.include_system_assemblies && strStartsWith file "System."))
    else 0)).sum

/-! ## Sample inputs used by closed witness and counterexample statements -/

/-- A binary dependency with a set path. -/
def sample_dll_dep : DependencyInfo :=
  { name := "Lib", version := "1.0", type := "dll", path := some "/x/Lib.dll",
    assembly_name := some "Lib" }

/-- A configuration whose backend name is unrecognized, so `_get_decompiler`
yields no backend. -/
def config_unrecognized_backend : DependencySymbolConfig :=
  { decompiler_backend := "none" }

/-- A configuration with decompilation enabled (default ILSpy backend). -/
def config_decompilation_enabled : DependencySymbolConfig :=
  { decompilation_enabled := true }

/-- A project tree with no manifests and no binaries: discovery finds nothing. -/
def fs_empty : ProjectFs :=
  { csproj_files := [],
    project_root := { path := "/r", is_dir := true, files := [] },
    external_roots := [] }

/-- A project tree whose root holds one binary: discovery finds one descriptor. -/
def fs_one_dll : ProjectFs :=
  { csproj_files := [],
    project_root := { path := "/r", is_dir := true, files := ["Lib.dll"] },
    external_roots := [] }

/-- A project tree with one manifest reference whose `Version` attribute is
present but empty. -/
def fs_empty_version_attr : ProjectFs :=
  { csproj_files := [{ parse_ok := true,
                       refs := [{ include_attr := some "A", version_attr := some "" }] }],
    project_root := { path := "/r", is_dir := false, files := [] },
    external_roots := [] }

/-- World over `fs_empty`. -/
def world_empty : World :=
  { cfg := DEFAULT_DEPENDENCY_CONFIG, fs := fs_empty,
    run := fun _ => RunResult.fileNotFound, path_exists := fun _ => false }

/-- World over `fs_one_dll`. -/
def world_one_dll : World :=
  { cfg := DEFAULT_DEPENDENCY_CONFIG, fs := fs_one_dll,
    run := fun _ => RunResult.fileNotFound, path_exists := fun _ => false }

/-! ## Helper lemmas -/

lemma placeholder_first (dep : DependencyInfo) :
    (create_placeholder_dll_symbols dep)[0]! = { name := dep.name, kind := SymbolKind.Class } :=
  rfl

lemma map_const_eq_replicate {α β : Type} (l : List α) (c : β) (f : α → β)
    (h : ∀ a, f a = c) : l.map f = List.replicate l.length c := by
  induction l with
  | nil => rfl
  | cons a as ih => simp [List.replicate, h a, ih]

lemma length_filterMap_eq_countP {α β : Type} (f : α → Option β) (p : α → Bool)
    (h : ∀ a, (f a).isSome = p a) (l : List α) :
    (l.filterMap f).length = l.countP p := by
  induction l with
  | nil => rfl
  | cons a as ih =>
    cases hfa : f a with
    | none =>
      have hpa : p a = false := by rw [← h a, hfa]; rfl
      simp [List.filterMap_cons, hfa, List.countP_cons, hpa, ih]
    | some b =>
      have hpa : p a = true := by rw [← h a, hfa]; rfl
      simp [List.filterMap_cons, hfa, List.countP_cons, hpa, ih]

/-! ## Claim theorems -/

/-- Claim C1 (counterexample): with an unrecognized decompiler backend
configured — so `_get_decompiler` returns no backend — a `dll` dependency at
an existing path under disabled decompilation resolves to the empty list, not
to the single placeholder symbol the claim promises for every backend
"including none". -/
theorem dll_disabled_no_backend_yields_empty :
    get_dll_symbols config_unrecognized_backend (fun _ => RunResult.fileNotFound)
        (fun _ => true) sample_dll_dep false
      ≠ [{ name := sample_dll_dep.name, kind := SymbolKind.Class }] := by
  decide

/-- Claim C1 (amended): for a `dll` dependency with a truthy path that exists
on disk, when decompilation is disabled, resolution returns exactly one
placeholder symbol named after the dependency for every configured backend
that resolves to a backend instance; when no backend resolves (unrecognized
backend name), resolution returns the empty list instead. -/
theorem dll_disabled_placeholder_when_backend_resolves
    (cfg : DependencySymbolConfig) (run : SubprocessRunner)
    (path_exists : String → Bool) (dep : DependencyInfo) (p : String)
    (include_body : Bool)
    (hpath : dep.path = some p) (hne : (p == "") = false)
    (hex : path_exists p = true) (hdec : cfg.decompilation_enabled = false) :
    (∀ b, get_decompiler cfg = some b →
      get_dll_symbols cfg run path_exists dep include_body
        = [{ name := dep.name, kind := SymbolKind.Class }])
    ∧ (get_decompiler cfg = none →
      get_dll_symbols cfg run path_exists dep include_body = []) := by
  constructor
  · intro b hb
    simp [get_dll_symbols, hpath, hne, hex, hb, hdec, create_placeholder_dll_symbols]
  · intro hb
    simp [get_dll_symbols, hpath, hne, hex, hb]

/-- Witness for the amended C1 theorem at a concrete input (default
configuration: ILSpy backend, decompilation disabled). -/
theorem dll_disabled_placeholder_witness :
    sample_dll_dep.path = some "/x/Lib.dll"
    ∧ (("/x/Lib.dll" : String) == "") = false
    ∧ DEFAULT_DEPENDENCY_CONFIG.decompilation_enabled = false
    ∧ get_dll_symbols DEFAULT_DEPENDENCY_CONFIG (fun _ => RunResult.fileNotFound)
        (fun _ => true) sample_dll_dep false
      = [{ name := sample_dll_dep.name, kind := SymbolKind.Class }] :=
  ⟨rfl, by decide, rfl,
    (dll_disabled_placeholder_when_backend_resolves DEFAULT_DEPENDENCY_CONFIG
      (fun _ => RunResult.fileNotFound) (fun _ => true) sample_dll_dep "/x/Lib.dll"
      false rfl (by decide) rfl rfl).1 _ rfl⟩

/-- Claim C2 (confirmed): with decompilation enabled and a resolved backend
that enumerates `N` type names, a `dll` dependency at an existing truthy path
resolves to exactly `N` copies of the placeholder symbol named after the
dependency (never after the enumerated type, and holding no decompiled body
text), for either value of `include_body`. -/
theorem dll_decompilation_enabled_placeholder_per_type
    (cfg : DependencySymbolConfig) (run : SubprocessRunner)
    (path_exists : String → Bool) (dep : DependencyInfo) (p : String)
    (b : DecompilerBackend) (include_body : Bool)
    (hpath : dep.path = some p) (hne : (p == "") = false)
    (hex : path_exists p = true)
    (hb : get_decompiler cfg = some b)
    (hdec : cfg.decompilation_enabled = true) :
    get_dll_symbols cfg run path_exists dep include_body
      = List.replicate (b.enumerate_types run p).1.length
          { name := dep.name, kind := SymbolKind.Class } := by
  simp only [get_dll_symbols, hpath, hne, hex, hb, hdec]
  simp only [Bool.not_true, Bool.false_eq_true, if_false, Bool.not_false, if_true]
  exact map_const_eq_replicate _ _ _ (fun a => placeholder_first dep)

/-- Witness for the C2 theorem: a backend run that enumerates two type names
produces two identical placeholder symbols, with `include_body = true`. -/
theorem dll_decompilation_enabled_placeholder_witness :
    sample_dll_dep.path = some "/x/Lib.dll"
    ∧ config_decompilation_enabled.decompilation_enabled = true
    ∧ get_dll_symbols config_decompilation_enabled (fun _ => RunResult.success "T1\nT2")
        (fun _ => true) sample_dll_dep true
      = List.replicate 2 { name := "Lib", kind := SymbolKind.Class } :=
  ⟨rfl, rfl,
    dll_decompilation_enabled_placeholder_per_type config_decompilation_enabled
      (fun _ => RunResult.success "T1\nT2") (fun _ => true) sample_dll_dep "/x/Lib.dll"
      (DecompilerBackend.ilspy
        { ilspycmd_path := "ilspycmd", depth := 1, include_private_members := false })
      true rfl (by decide) rfl rfl rfl⟩

/-- Claim C3 (code bug): the external-tool strategy constructed with
`depth = 0` still hands a decompilation command to the subprocess runner when
asked for a type body — `IlSpyDecompiler.decompile_type_body` never consults
`depth`, contradicting the documented contract that depth 0 performs metadata
listing only. -/
theorem ilspy_depth_zero_still_invokes_decompiler :
    (({ ilspycmd_path := "ilspycmd", depth := 0 } : IlSpyDecompiler).decompile_type_body
        (fun _ => RunResult.success "body") "a.dll" "T").2
      = [["ilspycmd", "-t", "T", "a.dll"]]
    ∧ (({ ilspycmd_path := "ilspycmd", depth := 0 } : IlSpyDecompiler).decompile_type_body
        (fun _ => RunResult.success "body") "a.dll" "T").2 ≠ [] := by
  decide

/-- Claim C4 (confirmed): the cache key of `_get_dependency_symbols` embeds the
body flag, so the keys for the two flag values on one dependency differ, and a
cache entry stored under one flag value is invisible to a lookup under the
other. -/
theorem cache_key_distinguishes_body_flag (dep : DependencyInfo) (b : Bool)
    (syms : List Symbol) (cache : SymbolCache) :
    dependency_cache_key dep b ≠ dependency_cache_key dep (!b)
    ∧ lookup_cache (dependency_cache_key dep b)
        ((dependency_cache_key dep (!b), syms) :: cache)
      = lookup_cache (dependency_cache_key dep b) cache := by
  have h1 : (":" : String).length = 1 := rfl
  have h4 : ("True" : String).length = 4 := rfl
  have h5 : ("False" : String).length = 5 := rfl
  have hk : dependency_cache_key dep b ≠ dependency_cache_key dep (!b) := by
    intro h
    have hl := congrArg String.length h
    cases b <;>
      simp [dependency_cache_key, pyBoolRepr, String.length_append, h1, h4, h5] at hl
  refine ⟨hk, ?_⟩
  have hbeq : (dependency_cache_key dep (!b) == dependency_cache_key dep b) = false :=
    beq_eq_false_iff_ne.mpr (fun h => hk h.symm)
  simp [lookup_cache, hbeq]

/-- Claim C5 (confirmed): `_matches_search_criteria` accepts a symbol exactly
under the specified kind conditions and case-insensitive name match
(substring or exact), and in particular pattern `"CONSOLE"` matches a symbol
named `"Console"` in exact mode. -/
theorem matches_search_criteria_correct :
    (∀ (symbol : Symbol) (pattern : String)
        (include_kinds exclude_kinds : List SymbolKind) (substring_matching : Bool),
      matches_search_criteria symbol pattern include_kinds exclude_kinds
          substring_matching = true
        ↔ matches_query_spec symbol pattern include_kinds exclude_kinds
            substring_matching)
    ∧ matches_search_criteria { name := "Console", kind := SymbolKind.Class }
        "CONSOLE" [] [] false = true := by
  constructor
  · intro symbol pattern ik ek sub
    simp only [matches_search_criteria, matches_query_spec]
    by_cases hik : ik ≠ [] ∧ symbol.kind ∉ ik
    · rw [if_pos hik]
      simp only [Bool.false_eq_true, false_iff]
      rintro ⟨⟨-, himp⟩, -⟩
      exact hik.2 (himp hik.1)
    · rw [if_neg hik]
      by_cases hekm : ek ≠ [] ∧ symbol.kind ∈ ek
      · rw [if_pos hekm]
        simp only [Bool.false_eq_true, false_iff]
        rintro ⟨⟨hek, -⟩, -⟩
        exact hek hekm.2
      · rw [if_neg hekm]
        have hnotin : symbol.kind ∉ ek := by
          by_cases he : ek = []
          · subst he; exact List.not_mem_nil _
          · exact fun hm => hekm ⟨he, hm⟩
        have hincl : ik ≠ [] → symbol.kind ∈ ik := by
          intro hne
          by_contra hnm
          exact hik ⟨hne, hnm⟩
        constructor
        · intro h
          refine ⟨⟨hnotin, hincl⟩, ?_⟩
          cases hs : sub <;> simp_all [beq_iff_eq]
        · rintro ⟨-, hname⟩
          cases hs : sub <;> simp_all [beq_iff_eq]
  · decide

/-- From a state whose dependency list is non-empty, a public call never
re-runs discovery and leaves the dependency list unchanged. -/
lemma run_op_of_nonempty (w : World) (s : RetrieverState) (op : Op)
    (h : s.dependencies_info ≠ []) :
    (run_op w s op).2 = false
    ∧ ((run_op w s op).1).dependencies_info = s.dependencies_info := by
  have hie : s.dependencies_info.isEmpty = false := by
    cases hx : s.dependencies_info with
    | nil => exact absurd hx h
    | cons a as => rfl
  cases op <;>
    simp [run_op, list_dependencies, find_dependency_symbols, ensure_discovered, hie]

/-- From a state whose dependency list is non-empty, a whole call sequence
runs discovery zero times. -/
lemma run_ops_of_nonempty (w : World) (ops : List Op) :
    ∀ s : RetrieverState, s.dependencies_info ≠ [] → (run_ops w s ops).2 = 0 := by
  induction ops with
  | nil => intro s _; rfl
  | cons op rest ih =>
    intro s h
    have h1 := run_op_of_nonempty w s op h
    have h2 : ((run_op w s op).1).dependencies_info ≠ [] := by rw [h1.2]; exact h
    simp [run_ops, h1.1, ih _ h2]

/-- The first public call from the freshly-constructed state runs discovery
and installs the scan result as the dependency list. -/
lemma run_op_initial (w : World) (op : Op) :
    (run_op w initial_state op).2 = true
    ∧ ((run_op w initial_state op).1).dependencies_info
        = discover_dependencies w.cfg w.fs := by
  cases op <;>
    simp [run_op, list_dependencies, find_dependency_symbols, ensure_discovered,
      initial_state]

/-- Claim C6 (counterexample): over a project where the discovery scan finds
nothing, two consecutive `list_dependencies` calls on one instance run the
scan twice — the emptiness test that guards memoization cannot tell "never
ran" from "ran and found nothing". -/
theorem discovery_runs_twice_on_empty_project :
    ¬ ((run_ops world_empty initial_state [Op.listDeps, Op.listDeps]).2 ≤ 1) := by
  decide

/-- Claim C6 (amended): over any sequence of `list_dependencies` and
`find_dependency_symbols` calls on one retriever instance with no intervening
cache clear, the discovery scan runs at most once, provided the scan finds at
least one dependency; when the scan yields an empty list, each call re-runs
it. -/
theorem discovery_memoized_when_nonempty (w : World)
    (h : discover_dependencies w.cfg w.fs ≠ []) (ops : List Op) :
    (run_ops w initial_state ops).2 ≤ 1 := by
  cases ops with
  | nil => simp [run_ops]
  | cons op rest =>
    have h1 := run_op_initial w op
    have h2 : ((run_op w initial_state op).1).dependencies_info ≠ [] := by
      rw [h1.2]; exact h
    simp [run_ops, h1.1, run_ops_of_nonempty w rest _ h2]

/-- Witness for the amended C6 theorem: a project with one binary; two calls,
one discovery run. -/
theorem discovery_memoized_witness :
    discover_dependencies world_one_dll.cfg world_one_dll.fs ≠ []
    ∧ (run_ops world_one_dll initial_state [Op.listDeps, Op.listDeps]).2 ≤ 1 :=
  ⟨by decide,
    discovery_memoized_when_nonempty world_one_dll (by decide)
      [Op.listDeps, Op.listDeps]⟩

/-- Claim C7 (confirmed): `clear_cache` empties both the discovered-dependency
list and the symbol cache, and the next public call — `list_dependencies` or
`find_dependency_symbols` — re-runs discovery from scratch, installing the
fresh scan result. -/
theorem clear_cache_resets_and_rediscovers (w : World) (s : RetrieverState)
    (q : Query) :
    (clear_cache s).dependencies_info = []
    ∧ (clear_cache s).dependency_cache = []
    ∧ (run_op w (clear_cache s) Op.listDeps).2 = true
    ∧ ((run_op w (clear_cache s) Op.listDeps).1).dependencies_info
        = discover_dependencies w.cfg w.fs
    ∧ (run_op w (clear_cache s) (Op.findSyms q)).2 = true := by
  refine ⟨rfl, rfl, ?_, ?_, ?_⟩ <;>
    simp [run_op, list_dependencies, find_dependency_symbols, ensure_discovered,
      clear_cache]

/-- The package scan records exactly the references with truthy name and
version. -/
lemma discover_nuget_length (fs : ProjectFs) :
    (discover_nuget_dependencies fs).length = valid_package_refs fs := by
  unfold discover_nuget_dependencies valid_package_refs
  generalize fs.csproj_files = files
  induction files with
  | nil => rfl
  | cons f rest ih =>
    simp only [List.flatMap_cons, List.length_append, List.map_cons, List.sum_cons]
    rw [ih]
    congr 1
    by_cases hp : f.parse_ok = true
    · simp only [hp, if_true]
      exact length_filterMap_eq_countP _ _
        (fun r => by
          cases hc : pyTruthyStr r.include_attr && pyTruthyStr r.version_attr <;>
            simp [hc])
        f.refs
    · simp [hp]

/-- The binary scan records exactly the `.dll` files surviving the
system-assembly exclusion, per directory search root. -/
lemma discover_dlls_length (cfg : DependencySymbolConfig) (fs : ProjectFs) :
    (discover_external_dlls cfg fs).length = binary_files_after_exclusion cfg fs := by
  unfold discover_external_dlls binary_files_after_exclusion
  generalize (fs.project_root :: fs.external_roots) = roots
  induction roots with
  | nil => rfl
  | cons root rest ih =>
    simp only [List.flatMap_cons, List.length_append, List.map_cons, List.sum_cons]
    rw [ih]
    congr 1
    by_cases hdir : root.is_dir = true
    · simp only [hdir, Bool.not_true, Bool.false_eq_true, if_false, if_true]
      exact length_filterMap_eq_countP _ _
        (fun file => by
          cases h1 : strEndsWith file ".dll" <;>
            cases h2 : !cfg.include_system_assemblies && strStartsWith file "System." <;>
            simp [h1, h2])
        root.files
    · simp [hdir]

/-- Every descriptor from the package scan is `nuget`-kind. -/
lemma discover_nuget_types (fs : ProjectFs) :
    ∀ d ∈ discover_nuget_dependencies fs, d.type = "nuget" := by
  intro d hd
  simp only [discover_nuget_dependencies, List.mem_flatMap] at hd
  obtain ⟨f, -, hd⟩ := hd
  by_cases hp : f.parse_ok = true
  · simp only [hp, if_true, List.mem_filterMap] at hd
    obtain ⟨r, -, heq⟩ := hd
    by_cases hc : (pyTruthyStr r.include_attr && pyTruthyStr r.version_attr) = true
    · rw [if_pos hc] at heq
      injection heq with h
      rw [← h]
    · rw [if_neg hc] at heq
      cases heq
  · simp [hp] at hd

/-- Every descriptor from the binary scan is `dll`-kind. -/
lemma discover_dlls_types (cfg : DependencySymbolConfig) (fs : ProjectFs) :
    ∀ d ∈ discover_external_dlls cfg fs, d.type = "dll" := by
  intro d hd
  simp only [discover_external_dlls, List.mem_flatMap] at hd
  obtain ⟨root, -, hd⟩ := hd
  by_cases hdir : root.is_dir = true
  · simp only [hdir, Bool.not_true, Bool.false_eq_true, if_false, List.mem_filterMap] at hd
    obtain ⟨file, -, heq⟩ := hd
    by_cases h1 : strEndsWith file ".dll" = true
    · rw [if_pos h1] at heq
      by_cases h2 : (!cfg.include_system_assemblies && strStartsWith file "System.") = true
      · rw [if_pos h2] at heq
        cases heq
      · rw [if_neg h2] at heq
        injection heq with h
        rw [← h]
    · rw [if_neg h1] at heq
      cases heq
  · simp [hdir] at hd

/-- Claim C8 (counterexample): a manifest reference that carries both
attributes but an empty `Version` string is skipped by the package scan
(Python truthiness), so the descriptor count falls short of the spec-side
attribute count. -/
theorem empty_version_attr_not_counted :
    (discover_dependencies DEFAULT_DEPENDENCY_CONFIG fs_empty_version_attr).length
      ≠ package_refs_with_attrs fs_empty_version_attr
        + binary_files_after_exclusion DEFAULT_DEPENDENCY_CONFIG
            fs_empty_version_attr := by
  decide

/-- Claim C8 (amended): for every project tree with `N` manifest package
references carrying both a non-empty name and a non-empty version, and `M`
binary files under the search roots after the system-assembly exclusion
(duplicates from overlapping roots counted), discovery returns exactly
`N + M` descriptors: `N` of package kind and `M` of binary kind. -/
theorem discovery_descriptor_counts (cfg : DependencySymbolConfig) (fs : ProjectFs) :
    (discover_dependencies cfg fs).length
        = valid_package_refs fs + binary_files_after_exclusion cfg fs
    ∧ (discover_dependencies cfg fs).countP (fun d => d.type == "nuget")
        = valid_package_refs fs
    ∧ (discover_dependencies cfg fs).countP (fun d => d.type == "dll")
        = binary_files_after_exclusion cfg fs := by
  refine ⟨?_, ?_, ?_⟩
  · rw [discover_dependencies, List.length_append, discover_nuget_length,
      discover_dlls_length]
  · rw [discover_dependencies, List.countP_append]
    have hn : (discover_nuget_dependencies fs).countP (fun d => d.type == "nuget")
        = (discover_nuget_dependencies fs).length :=
      List.countP_eq_length.mpr (fun d hd => by simp [discover_nuget_types fs d hd])
    have hz : (discover_external_dlls cfg fs).countP (fun d => d.type == "nuget") = 0 := by
      rw [List.countP_eq_zero]
      intro d hd
      simp [discover_dlls_types cfg fs d hd]
    rw [hn, hz, discover_nuget_length, Nat.add_zero]
  · rw [discover_dependencies, List.countP_append]
    have hz : (discover_nuget_dependencies fs).countP (fun d => d.type == "dll") = 0 := by
      rw [List.countP_eq_zero]
      intro d hd
      simp [discover_nuget_types fs d hd]
    have hn : (discover_external_dlls cfg fs).countP (fun d => d.type == "dll")
        = (discover_external_dlls cfg fs).length :=
      List.countP_eq_length.mpr (fun d hd => by simp [discover_dlls_types cfg fs d hd])
    rw [hn, hz, discover_dlls_length, Nat.zero_add]

/-- Claim C9 (confirmed): the `max_results` cap of `find_dependency_symbols`
returns at most `max_results` symbols when positive, the whole filtered list
unchanged when zero or negative, and always a prefix of the filtered list
(preserving aggregation order, no re-sorting). -/
theorem max_results_truncation (max_results : Int) (l : List Symbol) :
    (0 < max_results →
      ((apply_max_results max_results l).length : Int) ≤ max_results)
    ∧ (max_results ≤ 0 → apply_max_results max_results l = l)
    ∧ ∃ t, apply_max_results max_results l ++ t = l := by
  unfold apply_max_results
  by_cases hc : (max_results > 0 && ((l.length : Int) > max_results)) = true
  · rw [if_pos hc]
    simp only [Bool.and_eq_true, decide_eq_true_eq] at hc
    refine ⟨fun _ => ?_, fun hle => absurd hc.1 (by omega),
      ⟨l.drop max_results.toNat, List.take_append_drop _ _⟩⟩
    rw [List.length_take]
    omega
  · rw [if_neg hc]
    have hc2 : ¬(0 < max_results ∧ (l.length : Int) > max_results) := by
      simpa using hc
    refine ⟨fun hpos => ?_, fun _ => rfl, ⟨[], List.append_nil l⟩⟩
    have hlen : ¬((l.length : Int) > max_results) := fun hgt => hc2 ⟨hpos, hgt⟩
    omega

/-- Witness for the C9 theorem: `max_results = 1` truncates a five-symbol list
to one, and `max_results = -1` leaves a list untouched. -/
theorem max_results_truncation_witness :
    (0 : Int) < 1
    ∧ ((apply_max_results 1
          (List.replicate 5 { name := "A", kind := SymbolKind.Class })).length : Int) ≤ 1
    ∧ (-1 : Int) ≤ 0
    ∧ apply_max_results (-1) [{ name := "A", kind := SymbolKind.Class }]
        = [{ name := "A", kind := SymbolKind.Class }] :=
  ⟨by decide,
    (max_results_truncation 1
      (List.replicate 5 { name := "A", kind := SymbolKind.Class })).1 (by decide),
    by decide,
    (max_results_truncation (-1)
      [{ name := "A", kind := SymbolKind.Class }]).2.1 (by decide)⟩

/-- Claim C10 (confirmed): the external-tool strategy maps each subprocess
outcome to the interface contract — stdout lines / stdout text on success, the
empty list / the deterministic failure stub on a non-zero exit or a missing
executable — and (in this total model, where the two caught exception classes
are the failure outcomes) never propagates a failure to the caller. -/
theorem ilspy_failure_contract (d : IlSpyDecompiler) (run : SubprocessRunner)
    (assembly_path type_name : String) :
    (∀ out, run [d.ilspycmd_path, "-l", "c,i,s,d,e", assembly_path]
          = RunResult.success out →
        (d.enumerate_types run assembly_path).1 = pySplitlines out)
    ∧ (run [d.ilspycmd_path, "-l", "c,i,s,d,e", assembly_path]
          = RunResult.calledProcessError →
        (d.enumerate_types run assembly_path).1 = [])
    ∧ (run [d.ilspycmd_path, "-l", "c,i,s,d,e", assembly_path]
          = RunResult.fileNotFound →
        (d.enumerate_types run assembly_path).1 = [])
    ∧ (∀ out, run [d.ilspycmd_path, "-t", type_name, assembly_path]
          = RunResult.success out →
        (d.decompile_type_body run assembly_path type_name).1 = out)
    ∧ (run [d.ilspycmd_path, "-t", type_name, assembly_path]
          = RunResult.calledProcessError →
        (d.decompile_type_body run assembly_path type_name).1
          = "// Failed to decompile " ++ type_name)
    ∧ (run [d.ilspycmd_path, "-t", type_name, assembly_path]
          = RunResult.fileNotFound →
        (d.decompile_type_body run assembly_path type_name).1
          = "// Failed to decompile " ++ type_name) :=
  ⟨fun out h => by simp [IlSpyDecompiler.enumerate_types, h],
    fun h => by simp [IlSpyDecompiler.enumerate_types, h],
    fun h => by simp [IlSpyDecompiler.enumerate_types, h],
    fun out h => by simp [IlSpyDecompiler.decompile_type_body, h],
    fun h => by simp [IlSpyDecompiler.decompile_type_body, h],
    fun h => by simp [IlSpyDecompiler.decompile_type_body, h]⟩

/-- Witness for the C10 theorem: a successful enumeration splits stdout into
lines; a missing executable during body decompilation yields the stub. -/
theorem ilspy_failure_contract_witness :
    (({ ilspycmd_path := "ilspycmd" } : IlSpyDecompiler).enumerate_types
        (fun _ => RunResult.success "A\nB") "x.dll").1 = pySplitlines "A\nB"
    ∧ (({ ilspycmd_path := "ilspycmd" } : IlSpyDecompiler).decompile_type_body
        (fun _ => RunResult.fileNotFound) "x.dll" "T").1
      = "// Failed to decompile " ++ "T" :=
  ⟨(ilspy_failure_contract { ilspycmd_path := "ilspycmd" }
      (fun _ => RunResult.success "A\nB") "x.dll" "T").1 "A\nB" rfl,
    (ilspy_failure_contract { ilspycmd_path := "ilspycmd" }
      (fun _ => RunResult.fileNotFound) "x.dll" "T").2.2.2.2.2 rfl⟩

end Serena
